import Mathlib

/-!
# Encrypted broadcast relay: `server.js`

A shallow embedding of the relay server. The repository code (`encryptBuffer`,
`decryptPayload`, the two HTTP handlers, the `stream_chunk` relay and the key load at
startup) is translated statement by statement. The library calls it makes are modelled
as follows, after Node 22 (OpenSSL 3) and socket.io 4.

* A JavaScript string is its sequence of UTF-16 code units.
* `Buffer.from(s, "hex" | "base64")` and `buf.toString("hex" | "base64")`: Node's codecs.
  The decoders read the low eight bits of each code unit. Decoding never throws on a string:
  hex decoding stops at the first pair that is not two hexadecimal digits, base64 decoding
  skips what is outside the alphabet and stops at the first `=`. A value that is not a string
  makes `Buffer.from` throw a `TypeError`.
* `crypto.createCipheriv("aes-256-gcm", ...)` and `createDecipheriv`: AES-256 (FIPS 197) in
  Galois/Counter Mode (NIST SP 800-38D) with no associated data and the default 16-byte tag,
  written out in full. Both accept an IV of 1 to 128 bytes and test the IV before the key,
  `setAuthTag` accepts tags of 4, 8, 12, 13, 14, 15 or 16 bytes, `update` returns the
  deciphered bytes at once and `final` throws when the tag does not match.
* `crypto.randomBytes(12)`: the bytes produced are a parameter (`rnd`).
* `io.emit` delivers to every connected socket, `socket.broadcast.emit` to every connected
  socket but the emitting one. The set of connected sockets is a parameter (`sockets`).
  socket.io serialises the arguments of an event as JSON, so that a receiver gets `null`
  where the emitter passed `undefined`.
* A `Response` holds what the handler itself set on `res`: the status, the headers set through
  `writeHead` and the body handed to `end`, `send` or `json`. What Express adds on its own
  account is left out.

Every call into `crypto` is recorded in a log, so that "no cipher operation was attempted"
is a statement about the log.

The AES and GCM definitions are checked below against the FIPS 197 and GCM test vectors.

Not modelled: JSON arrays and objects as fields of an HTTP body (`Buffer.from` turns an array
into bytes), numbers other than integers of magnitude below 2^53, binary attachments of a
socket event, the 200 MB limit of the body parser (a larger body never reaches a handler),
the length limit of GCM (2^39 - 256 bits), logging, and failures of the random source.
-/

namespace IITREnc

/-! ## Bytes and strings -/

/-- One octet of a Node `Buffer`. -/
abbrev Byte := Fin 256

/-- A Node `Buffer`. -/
abbrev Bytes := List Byte

/-- The octet holding the low eight bits of `n`. -/
def byteOf (n : Nat) : Byte := ⟨n % 256, Nat.mod_lt n (by decide)⟩

/-- Bitwise exclusive or of two octets. -/
def xorByte (a b : Byte) : Byte := byteOf (a.val ^^^ b.val)

/-- Bytewise exclusive or; the result is as long as the shorter argument. -/
def xorBytes (a b : Bytes) : Bytes := List.zipWith xorByte a b

/-- Big-endian value of a byte string. -/
def bytesToNat (bs : Bytes) : Nat := bs.foldl (fun acc b => acc * 256 + b.val) 0

/-- The 16 bytes of a 128-bit block, most significant first. -/
def natToBlock (n : Nat) : Bytes := (List.range 16).map (fun i => byteOf (n / 256 ^ (15 - i)))

/-- One UTF-16 code unit. -/
abbrev CodeUnit := Fin 65536

/-- A JavaScript string: its UTF-16 code units. -/
abbrev JsString := List CodeUnit

/-- The code unit holding the low sixteen bits of `n`. -/
def unitOf (n : Nat) : CodeUnit := ⟨n % 65536, Nat.mod_lt n (by decide)⟩

/-- The code units of one character: itself, or a surrogate pair above the basic plane. -/
def utf16Units (c : Char) : List CodeUnit :=
  if c.toNat < 65536 then [unitOf c.toNat]
  else [unitOf (55296 + (c.toNat - 65536) / 1024), unitOf (56320 + (c.toNat - 65536) % 1024)]

/-- The JavaScript string written as the literal `s`. -/
def js (s : String) : JsString := s.data.flatMap utf16Units

/-! ## Hexadecimal and base64 codecs of `Buffer` -/

/-- Lower-case hexadecimal digit of a value below 16: `0` to `9` are the units 48 to 57 and
`a` to `f` the units 97 to 102. -/
def hexDigit (n : Nat) : CodeUnit := if n < 10 then unitOf (48 + n) else unitOf (87 + n)

/-- Value of a hexadecimal digit, either case, read from the low eight bits of the unit. -/
def unhex (u : CodeUnit) : Option Nat :=
  let c := u.val % 256
  if 48 ≤ c ∧ c ≤ 57 then some (c - 48)
  else if 97 ≤ c ∧ c ≤ 102 then some (c - 87)
  else if 65 ≤ c ∧ c ≤ 70 then some (c - 55)
  else none

/-- Code units of `buf.toString("hex")`. -/
def hexEncode : Bytes → JsString
  | [] => []
  | b :: bs => hexDigit (b.val / 16) :: hexDigit (b.val % 16) :: hexEncode bs

/-- Bytes of `Buffer.from(s, "hex")`: pairs of digits are decoded until the first pair that
is not two hexadecimal digits; a trailing single unit is dropped. -/
def hexDecode : JsString → Bytes
  | c1 :: c2 :: cs =>
    match unhex c1, unhex c2 with
    | some a, some b => byteOf (a * 16 + b) :: hexDecode cs
    | _, _ => []
  | _ => []

/-- Unit of the standard base64 alphabet for a value below 64: `A` to `Z` (65 to 90), `a` to
`z` (97 to 122), `0` to `9` (48 to 57), `+` (43) and `/` (47). -/
def b64Char (n : Nat) : CodeUnit :=
  if n < 26 then unitOf (65 + n)
  else if n < 52 then unitOf (71 + n)
  else if n < 62 then unitOf (n - 4)
  else if n = 62 then unitOf 43
  else unitOf 47

/-- Value of a base64 character, read from the low eight bits of the unit; the URL-safe `-`
(45) and `_` (95) are accepted as well. -/
def unbase64 (u : CodeUnit) : Option Nat :=
  let c := u.val % 256
  if 65 ≤ c ∧ c ≤ 90 then some (c - 65)
  else if 97 ≤ c ∧ c ≤ 122 then some (c - 71)
  else if 48 ≤ c ∧ c ≤ 57 then some (c + 4)
  else if c = 43 ∨ c = 45 then some 62
  else if c = 47 ∨ c = 95 then some 63
  else none

/-- Code units of `buf.toString("base64")`, padded with `=` (61). -/
def base64Encode : Bytes → JsString
  | a :: b :: c :: rest =>
    b64Char (a.val / 4) :: b64Char (a.val % 4 * 16 + b.val / 16) ::
      b64Char (b.val % 16 * 4 + c.val / 64) :: b64Char (c.val % 64) :: base64Encode rest
  | [a, b] =>
    [b64Char (a.val / 4), b64Char (a.val % 4 * 16 + b.val / 16), b64Char (b.val % 16 * 4),
      unitOf 61]
  | [a] => [b64Char (a.val / 4), b64Char (a.val % 4 * 16), unitOf 61, unitOf 61]
  | [] => []

/-- The 6-bit values read by the base64 decoder: it stops at the first unit whose low eight
bits are `=` and skips every unit whose low eight bits are outside the alphabet. -/
def base64Sextets (cs : JsString) : List Nat :=
  (cs.takeWhile (fun u => u.val % 256 != 61)).filterMap unbase64

/-- Bytes assembled from 6-bit values; an incomplete last group yields the bytes it
completes. -/
def fromSextets : List Nat → Bytes
  | s0 :: s1 :: s2 :: s3 :: rest =>
    byteOf (s0 * 4 + s1 / 16) :: byteOf (s1 % 16 * 16 + s2 / 4) :: byteOf (s2 % 4 * 64 + s3) ::
      fromSextets rest
  | [s0, s1, s2] => [byteOf (s0 * 4 + s1 / 16), byteOf (s1 % 16 * 16 + s2 / 4)]
  | [s0, s1] => [byteOf (s0 * 4 + s1 / 16)]
  | _ => []

/-- Bytes of `Buffer.from(s, "base64")`. -/
def base64Decode (cs : JsString) : Bytes := fromSextets (base64Sextets cs)

/-! ## AES-256 block cipher (FIPS 197) -/

/-- The AES substitution box. -/
def SBOX : List Nat :=
  [99, 124, 119, 123, 242, 107, 111, 197, 48, 1, 103, 43, 254, 215, 171, 118, 202, 130, 201, 125,
  250, 89, 71, 240, 173, 212, 162, 175, 156, 164, 114, 192, 183, 253, 147, 38, 54, 63, 247, 204,
  52, 165, 229, 241, 113, 216, 49, 21, 4, 199, 35, 195, 24, 150, 5, 154, 7, 18, 128, 226, 235,
  39, 178, 117, 9, 131, 44, 26, 27, 110, 90, 160, 82, 59, 214, 179, 41, 227, 47, 132, 83, 209, 0,
  237, 32, 252, 177, 91, 106, 203, 190, 57, 74, 76, 88, 207, 208, 239, 170, 251, 67, 77, 51, 133,
  69, 249, 2, 127, 80, 60, 159, 168, 81, 163, 64, 143, 146, 157, 56, 245, 188, 182, 218, 33, 16,
  255, 243, 210, 205, 12, 19, 236, 95, 151, 68, 23, 196, 167, 126, 61, 100, 93, 25, 115, 96, 129,
  79, 220, 34, 42, 144, 136, 70, 238, 184, 20, 222, 94, 11, 219, 224, 50, 58, 10, 73, 6, 36, 92,
  194, 211, 172, 98, 145, 149, 228, 121, 231, 200, 55, 109, 141, 213, 78, 169, 108, 86, 244, 234,
  101, 122, 174, 8, 186, 120, 37, 46, 28, 166, 180, 198, 232, 221, 116, 31, 75, 189, 139, 138,
  112, 62, 181, 102, 72, 3, 246, 14, 97, 53, 87, 185, 134, 193, 29, 158, 225, 248, 152, 17, 105,
  217, 142, 148, 155, 30, 135, 233, 206, 85, 40, 223, 140, 161, 137, 13, 191, 230, 66, 104, 65,
  153, 45, 15, 176, 84, 187, 22]

/-- SubBytes on one byte. -/
def subByte (x : Nat) : Nat := SBOX.getD x 0

/-- Multiplication by `x` in GF(2^8) modulo `x^8 + x^4 + x^3 + x + 1`. -/
def xtime (a : Nat) : Nat := if a < 128 then 2 * a else (2 * a % 256) ^^^ 0x1b

/-- SubWord: the substitution box on each byte of a 32-bit word. -/
def subWord (w : Nat) : Nat :=
  subByte (w / 2^24 % 256) * 2^24 + subByte (w / 2^16 % 256) * 2^16
    + subByte (w / 2^8 % 256) * 2^8 + subByte (w % 256)

/-- RotWord: rotation of a 32-bit word by one byte to the left. -/
def rotWord (w : Nat) : Nat := (w % 2^24) * 2^8 + w / 2^24 % 256

/-- Round constant: `rcon i` is `x^(i-1)` in GF(2^8). -/
def rcon : Nat → Nat
  | 0 => 0x8d
  | n+1 => xtime (rcon n)

/-- Big-endian 32-bit words of a byte list. -/
def keyWords : List Nat → List Nat
  | a :: b :: c :: d :: rest => (a * 2^24 + b * 2^16 + c * 2^8 + d) :: keyWords rest
  | _ => []

/-- Key expansion for `Nk = 8`: `ws` holds the words computed so far, the latest first, and
`i` is the index of the next word. -/
def expandKeyAux : Nat → Nat → List Nat → List Nat
  | 0, _, ws => ws
  | n+1, i, ws =>
    let prev := ws.getD 0 0
    let temp :=
      if i % 8 = 0 then subWord (rotWord prev) ^^^ (rcon (i / 8) * 2^24)
      else if i % 8 = 4 then subWord prev
      else prev
    expandKeyAux n (i + 1) ((ws.getD 7 0 ^^^ temp) :: ws)

/-- The four bytes of a 32-bit word, most significant first. -/
def wordBytes (w : Nat) : List Nat := [w / 2^24 % 256, w / 2^16 % 256, w / 2^8 % 256, w % 256]

/-- The 240 bytes of the fifteen round keys of a 32-byte key. -/
def keyExpansion (key : List Nat) : List Nat :=
  ((expandKeyAux 52 8 (keyWords key).reverse).reverse).flatMap wordBytes

/-- AddRoundKey. -/
def addRoundKey (s rk : List Nat) : List Nat := List.zipWith (fun a b => a ^^^ b) s rk

/-- ShiftRows on a state stored column by column. -/
def shiftRows (s : List Nat) : List Nat :=
  (List.range 16).map (fun i => s.getD (i % 4 + 4 * ((i / 4 + i % 4) % 4)) 0)

/-- MixColumns. -/
def mixColumns : List Nat → List Nat
  | a0 :: a1 :: a2 :: a3 :: rest =>
    (xtime a0 ^^^ (xtime a1 ^^^ a1) ^^^ a2 ^^^ a3) ::
    (a0 ^^^ xtime a1 ^^^ (xtime a2 ^^^ a2) ^^^ a3) ::
    (a0 ^^^ a1 ^^^ xtime a2 ^^^ (xtime a3 ^^^ a3)) ::
    ((xtime a0 ^^^ a0) ^^^ a1 ^^^ a2 ^^^ xtime a3) :: mixColumns rest
  | _ => []

/-- The given number of full rounds, consuming one round key each. -/
def aesRounds : Nat → List Nat → List Nat → List Nat
  | 0, s, _ => s
  | n+1, s, rks =>
    aesRounds n (addRoundKey (mixColumns (shiftRows (s.map subByte))) (rks.take 16)) (rks.drop 16)

/-- The AES-256 cipher on a 16-byte state: initial round key, 13 full rounds, final round. -/
def aesCipher (key : List Nat) (inp : List Nat) : List Nat :=
  let w := keyExpansion key
  let s := aesRounds 13 (addRoundKey inp (w.take 16)) (w.drop 16)
  addRoundKey (shiftRows (s.map subByte)) (w.drop 224)

/-- AES-256 encryption of one 128-bit block, blocks being big-endian numbers. -/
def aesEncryptBlock (key : Bytes) (block : Nat) : Nat :=
  bytesToNat ((aesCipher (key.map Fin.val) ((natToBlock block).map Fin.val)).map byteOf)

/-! ## Galois/Counter Mode (NIST SP 800-38D) -/

/-- Shift-and-add loop of the GF(2^128) product: `z` accumulates, `v` is `y` times the
power of `x` reached, and the bits of `x` are read from the leftmost. -/
def gmulAux : Nat → Nat → Nat → Nat → Nat
  | 0, _, _, z => z
  | n+1, x, v, z =>
    gmulAux n x (if v % 2 = 0 then v / 2 else (v / 2) ^^^ (0xe1 * 2^120))
      (if x.testBit n then z ^^^ v else z)

/-- Product of two blocks in GF(2^128). -/
def gmul (x y : Nat) : Nat := gmulAux 128 x y 0

/-- The first `n` chunks of 16 bytes. -/
def chunks16 : Nat → Bytes → List Bytes
  | 0, _ => []
  | n+1, d => d.take 16 :: chunks16 n (d.drop 16)

/-- A chunk padded with zero bytes on the right to a block. -/
def padBlock (c : Bytes) : Nat := bytesToNat (c ++ List.replicate (16 - c.length) 0)

/-- The blocks of a byte string, the last one zero-padded. -/
def toBlocks (d : Bytes) : List Nat := (chunks16 ((d.length + 15) / 16) d).map padBlock

/-- GHASH with hash subkey `h`. -/
def ghash (h : Nat) (blocks : List Nat) : Nat := blocks.foldl (fun y x => gmul (y ^^^ x) h) 0

/-- Increment of the rightmost 32 bits of a counter block, modulo 2^32. -/
def inc32 (x : Nat) : Nat := x / 2^32 * 2^32 + (x % 2^32 + 1) % 2^32

/-- Key stream of `n` blocks from counter block `cb` under the block function `E`. -/
def keystream (E : Nat → Nat) : Nat → Nat → Bytes
  | 0, _ => []
  | n+1, cb => natToBlock (E cb) ++ keystream E n (inc32 cb)

/-- GCTR: counter-mode encryption from the initial counter block `icb`. -/
def gctr (E : Nat → Nat) (icb : Nat) (d : Bytes) : Bytes :=
  xorBytes d (keystream E ((d.length + 15) / 16) icb)

/-- Pre-counter block: `IV || 0^31 || 1` for a 96-bit IV, a GHASH of the IV otherwise. -/
def gcmJ0 (h : Nat) (iv : Bytes) : Nat :=
  if iv.length = 12 then bytesToNat iv * 2^32 + 1
  else ghash h (toBlocks iv ++ [(8 * iv.length) % 2^64])

/-- The 16-byte GCM tag of ciphertext `ct` under `key` and `iv`, with no associated data. -/
def gcmTag (key iv ct : Bytes) : Bytes :=
  let h := aesEncryptBlock key 0
  let s := ghash h (toBlocks ct ++ [(8 * ct.length) % 2^64])
  natToBlock (aesEncryptBlock key (gcmJ0 h iv) ^^^ s)

/-- GCM encryption and decryption of the data: GCTR from `inc32 J0`. -/
def gcmCrypt (key iv d : Bytes) : Bytes :=
  gctr (aesEncryptBlock key) (inc32 (gcmJ0 (aesEncryptBlock key 0) iv)) d


/-! ## JavaScript values, exceptions and the log of `crypto` calls -/

/-- An integer that JavaScript holds exactly: its magnitude is below 2^53. -/
abbrev SafeInt := { n : Int // n.natAbs < 9007199254740992 }

/-- A value of a field of a parsed JSON body; a missing field is `undefined`. Arrays, objects
and numbers that are not safe integers are not modelled. -/
inductive JsValue where
  | undefined
  | null
  | bool (b : Bool)
  | number (n : SafeInt)
  | string (s : JsString)
  deriving DecidableEq

/-- JavaScript truthiness, as tested by `!v` and `v || d`. -/
def JsValue.truthy : JsValue → Bool
  | .undefined => false
  | .null => false
  | .bool b => b
  | .number n => n.val != 0
  | .string s => !s.isEmpty

/-- String conversion, as in a template literal. -/
def JsValue.toStr : JsValue → JsString
  | .undefined => js "undefined"
  | .null => js "null"
  | .bool b => if b then js "true" else js "false"
  | .number n => js (toString n.val)
  | .string s => s

/-- A JSON value, as carried by a socket event. Numbers are integers. -/
inductive Json where
  | null
  | bool (b : Bool)
  | number (n : Int)
  | string (s : JsString)
  | array (items : List Json)
  | object (fields : List (JsString × Json))

/-- The exceptions thrown by the library calls of `server.js`. -/
inductive JsError where
  | invalidArgType
  | invalidKeyLength
  | invalidIV
  | invalidState
  | invalidAuthTagLength
  | authFailed
  deriving DecidableEq

/-- The encodings used by `server.js`. -/
inductive Encoding where
  | hex
  | base64
  deriving DecidableEq

/-- The calls into `crypto`. -/
inductive CryptoOp where
  | randomBytes (size : Nat)
  | createCipheriv
  | cipherUpdate
  | cipherFinal
  | getAuthTag
  | createDecipheriv
  | setAuthTag
  | decipherUpdate
  | decipherFinal
  deriving DecidableEq

/-- A run of JavaScript code: the `crypto` calls it made, in order, and the value it returned
or the exception it threw. -/
structure Run (α : Type) where
  ops : List CryptoOp
  result : Except JsError α

deriving instance DecidableEq for Except

deriving instance DecidableEq for Run

/-- Sequencing: an exception ends the run and keeps the calls made up to it. -/
def Run.bind {α β : Type} (x : Run α) (f : α → Run β) : Run β :=
  match x.result with
  | .error e => ⟨x.ops, .error e⟩
  | .ok a => ⟨x.ops ++ (f a).ops, (f a).result⟩

instance : Monad Run where
  pure a := ⟨[], .ok a⟩
  bind := Run.bind

/-- A library call outside `crypto`. -/
def Run.plain {α : Type} (r : Except JsError α) : Run α := ⟨[], r⟩

/-- A call into `crypto`, recorded whether it returns or throws. -/
def Run.call {α : Type} (op : CryptoOp) (r : Except JsError α) : Run α := ⟨[op], r⟩

/-! ## `Buffer` -/

/-- Function `Buffer.from(v, enc)`: throws a `TypeError` unless `v` is a string. -/
def bufferFrom (v : JsValue) (enc : Encoding) : Run Bytes :=
  match v with
  | .string s =>
    match enc with
    | .hex => Run.plain (.ok (hexDecode s))
    | .base64 => Run.plain (.ok (base64Decode s))
  | _ => Run.plain (.error .invalidArgType)

/-- Method `buf.toString(enc)`. -/
def bufferToString (b : Bytes) (enc : Encoding) : JsString :=
  match enc with
  | .hex => hexEncode b
  | .base64 => base64Encode b

/-! ## `crypto` with `ALGORITHM = "aes-256-gcm"` -/

/-- Cipher algorithm of `server.js`; the `crypto` model below is the one of this algorithm. -/
def ALGORITHM : String := "aes-256-gcm"

/-- Function `crypto.randomBytes(size)`, the random source having produced `rnd`. -/
def randomBytes (rnd : Bytes) (size : Nat) : Run Bytes := Run.call (.randomBytes size) (.ok rnd)

/-- State of a `Cipher` object. -/
structure Cipher where
  key : Bytes
  iv : Bytes
  input : Bytes
  finished : Bool

/-- State of a `Decipher` object. -/
structure Decipher where
  key : Bytes
  iv : Bytes
  authTag : Option Bytes
  input : Bytes

/-- Function `crypto.createCipheriv(ALGORITHM, key, iv)`: the IV must have 1 to 128 bytes and
the key 32 bytes; the IV is tested first. -/
def createCipheriv (key iv : Bytes) : Run Cipher :=
  Run.call .createCipheriv
    (if iv.length = 0 ∨ 128 < iv.length then .error .invalidIV
     else if key.length ≠ 32 then .error .invalidKeyLength
     else .ok { key := key, iv := iv, input := [], finished := false })

/-- Method `cipher.update(data)`: the object takes the data in and returns its encryption. -/
def Cipher.update (c : Cipher) (data : Bytes) : Run (Cipher × Bytes) :=
  Run.call .cipherUpdate
    (if c.finished then .error .invalidState
     else .ok ({ c with input := c.input ++ data },
               (gcmCrypt c.key c.iv (c.input ++ data)).drop c.input.length))

/-- Method `cipher.final()`: returns no bytes in GCM and makes the tag available. -/
def Cipher.final (c : Cipher) : Run (Cipher × Bytes) :=
  Run.call .cipherFinal
    (if c.finished then .error .invalidState else .ok ({ c with finished := true }, []))

/-- Method `cipher.getAuthTag()`. -/
def Cipher.getAuthTag (c : Cipher) : Run Bytes :=
  Run.call .getAuthTag
    (if c.finished then .ok (gcmTag c.key c.iv (gcmCrypt c.key c.iv c.input))
     else .error .invalidState)

/-- Function `crypto.createDecipheriv(ALGORITHM, key, iv)`: the IV must have 1 to 128 bytes,
whatever its length in that range, and the key 32 bytes; the IV is tested first. -/
def createDecipheriv (key iv : Bytes) : Run Decipher :=
  Run.call .createDecipheriv
    (if iv.length = 0 ∨ 128 < iv.length then .error .invalidIV
     else if key.length ≠ 32 then .error .invalidKeyLength
     else .ok { key := key, iv := iv, authTag := none, input := [] })

/-- Method `decipher.setAuthTag(tag)`. -/
def Decipher.setAuthTag (d : Decipher) (tag : Bytes) : Run Decipher :=
  Run.call .setAuthTag
    (if tag.length ∈ [4, 8, 12, 13, 14, 15, 16] then
       (match d.authTag with
        | none => .ok { d with authTag := some tag }
        | some _ => .error .invalidState)
     else .error .invalidAuthTagLength)

/-- Method `decipher.update(data)`: returns the deciphered bytes, not yet authenticated. -/
def Decipher.update (d : Decipher) (data : Bytes) : Run (Decipher × Bytes) :=
  Run.call .decipherUpdate
    (.ok ({ d with input := d.input ++ data },
          (gcmCrypt d.key d.iv (d.input ++ data)).drop d.input.length))

/-- Method `decipher.final()`: compares the tag that was set with the tag of the ciphertext
taken in, cut to the length of the tag that was set, and throws unless they are equal. -/
def Decipher.final (d : Decipher) : Run Bytes :=
  Run.call .decipherFinal
    (match d.authTag with
     | none => .error .authFailed
     | some t => if t = (gcmTag d.key d.iv d.input).take t.length then .ok [] else .error .authFailed)


/-! ## `server.js`: the codec -/

/-- The object returned by `encryptBuffer`. -/
structure Envelope where
  iv : JsString
  authTag : JsString
  content : JsString
  deriving DecidableEq

/-- The object passed to `decryptPayload`; a missing field is `undefined`. -/
structure Payload where
  iv : JsValue
  authTag : JsValue
  content : JsValue
  deriving DecidableEq

/-- The payload made of the three strings of an envelope. -/
def Envelope.toPayload (e : Envelope) : Payload :=
  { iv := .string e.iv, authTag := .string e.authTag, content := .string e.content }

/-- Function `encryptBuffer(buffer)` of `server.js`, with the global `KEY` and the output `rnd`
of `crypto.randomBytes(12)` as parameters. -/
def encryptBuffer (KEY rnd buffer : Bytes) : Run Envelope := do
  let iv ← randomBytes rnd 12
  let cipher ← createCipheriv KEY iv
  let (cipher, head) ← cipher.update buffer
  let (cipher, tail) ← cipher.final
  let ciphertext := head ++ tail
  let authTag ← cipher.getAuthTag
  return { iv := bufferToString iv .hex,
           authTag := bufferToString authTag .hex,
           content := bufferToString ciphertext .base64 }

/-- Function `decryptPayload(payload)` of `server.js`, with the global `KEY` as parameter. -/
def decryptPayload (KEY : Bytes) (payload : Payload) : Run Bytes := do
  let iv ← bufferFrom payload.iv .hex
  let authTag ← bufferFrom payload.authTag .hex
  let ciphertext ← bufferFrom payload.content .base64
  let decipher ← createDecipheriv KEY iv
  let decipher ← decipher.setAuthTag authTag
  let (decipher, head) ← decipher.update ciphertext
  let tail ← decipher.final
  return head ++ tail

/-! ## `server.js`: HTTP handlers and the socket relay -/

/-- Body of an HTTP response. -/
inductive ResBody where
  | json (fields : List (String × String))
  | text (s : String)
  | binary (b : Bytes)
  deriving DecidableEq

/-- An HTTP response as the handler made it: the status, the headers it set through
`writeHead`, and the body. -/
structure Response where
  status : Nat
  headers : List (String × JsString)
  body : ResBody
  deriving DecidableEq

/-- One delivery of an event to a connected socket: the socket, the event name and the value
its listener receives. -/
structure Emit (π : Type) where
  target : String
  event : String
  payload : π
  deriving DecidableEq

/-- Method `io.emit(event, payload)`: one delivery to every connected socket. -/
def ioEmit {π : Type} (sockets : List String) (event : String) (payload : π) : List (Emit π) :=
  sockets.map (fun s => { target := s, event := event, payload := payload })

/-- What the listener of a socket event receives for the argument `data` of `emit`, which is
`undefined` (`none`) or a JSON value: socket.io writes the arguments with `JSON.stringify`,
which writes `undefined` as `null` and a JSON value as itself. -/
def socketWire (data : Option Json) : Option Json :=
  match data with
  | none => some .null
  | some v => some v

/-- Method `socket.broadcast.emit(event, data)`: one delivery of the serialised `data` to
every connected socket other than the socket `self` it is called on. -/
def socketBroadcastEmit (sockets : List String) (self : String) (event : String)
    (data : Option Json) : List (Emit (Option Json)) :=
  ioEmit (sockets.filter (fun s => s != self)) event (socketWire data)

/-- JSON body of `POST /upload-and-broadcast`. -/
structure UploadBody where
  filename : JsValue
  filetype : JsValue
  filedata : JsValue

/-- Payload of the `encrypted_broadcast` event. -/
structure BroadcastMessage where
  filename : JsValue
  filetype : JsValue
  iv : JsString
  authTag : JsString
  content : JsString
  deriving DecidableEq

/-- What one run of the upload handler did: its response, the deliveries it caused and the
`crypto` calls it made. -/
structure UploadOutcome where
  response : Response
  emitted : List (Emit BroadcastMessage)
  ops : List CryptoOp
  deriving DecidableEq

/-- Handler of `POST /upload-and-broadcast`, with the connected sockets as parameter. -/
def uploadAndBroadcast (KEY : Bytes) (sockets : List String) (rnd : Bytes) (body : UploadBody) :
    UploadOutcome :=
  if !body.filedata.truthy then
    { response := { status := 400, headers := [], body := .json [("message", "no filedata")] },
      emitted := [], ops := [] }
  else
    let attempt : Run Envelope := do
      let buffer ← bufferFrom body.filedata .base64
      encryptBuffer KEY rnd buffer
    match attempt.result with
    | .ok encrypted =>
      { response := { status := 200, headers := [], body := .json [("status", "ok")] },
        emitted := ioEmit sockets "encrypted_broadcast"
          { filename := body.filename, filetype := body.filetype, iv := encrypted.iv,
            authTag := encrypted.authTag, content := encrypted.content },
        ops := attempt.ops }
    | .error _ =>
      { response := { status := 500, headers := [], body := .json [("message", "server error")] },
        emitted := [], ops := attempt.ops }

/-- JSON body of `POST /decrypt-file`. -/
structure DecryptBody where
  filename : JsValue
  filetype : JsValue
  iv : JsValue
  authTag : JsValue
  content : JsValue

/-- Units Node accepts in a header value: tab, 0x20 to 0x7e, 0x80 to 0xff. -/
def validHeaderValue (s : JsString) : Bool :=
  s.all (fun u => u.val == 9 || (32 ≤ u.val && u.val ≤ 126) || (128 ≤ u.val && u.val ≤ 255))

/-- The headers the handler passes to `res.writeHead`, in the order of the object literal. -/
def downloadHeaders (filename filetype : JsValue) : List (String × JsString) :=
  [("Content-Type", if filetype.truthy then filetype.toStr else js "application/octet-stream"),
   ("Content-Disposition", js "attachment; filename=" ++ [unitOf 34] ++ filename.toStr ++ [unitOf 34])]

/-- What one run of the decrypt handler did. -/
structure DecryptOutcome where
  response : Response
  ops : List CryptoOp
  deriving DecidableEq

/-- Handler of `POST /decrypt-file`. Method `res.writeHead` sets the headers one by one and
throws at the first value holding a forbidden unit; the headers set before it stay set when the
`catch` branch answers. -/
def decryptFile (KEY : Bytes) (body : DecryptBody) : DecryptOutcome :=
  let attempt := decryptPayload KEY { iv := body.iv, authTag := body.authTag, content := body.content }
  match attempt.result with
  | .ok plaintext =>
    let headers := downloadHeaders body.filename body.filetype
    if headers.all (fun h => validHeaderValue h.2) then
      { response := { status := 200, headers := headers, body := .binary plaintext },
        ops := attempt.ops }
    else
      { response := { status := 500,
                      headers := headers.takeWhile (fun h => validHeaderValue h.2),
                      body := .text "decrypt failed" },
        ops := attempt.ops }
  | .error _ =>
    { response := { status := 500, headers := [], body := .text "decrypt failed" },
      ops := attempt.ops }

/-- Handler of the `stream_chunk` event on the socket `self`; `data` is `none` when the event
came with no argument. -/
def streamChunk (sockets : List String) (self : String) (data : Option Json) :
    List (Emit (Option Json)) :=
  socketBroadcastEmit sockets self "stream_chunk" data

/-! ## `server.js`: key load at startup -/

/-- What is found at `KEY_PATH`: nothing, something `readFileSync` cannot read, or a file. -/
inductive KeyFile where
  | missing
  | unreadable
  | file (content : Bytes)

/-- How the top level of `server.js` ends: the process exits with a code, or the handlers are
registered with the loaded `KEY` and the server listens. -/
inductive Startup where
  | exited (code : Nat)
  | listening (KEY : Bytes)
  deriving DecidableEq

/-- Top level of `server.js` up to `server.listen`. An exception of `readFileSync` is not
caught, which ends the process with code 1. -/
def startup (f : KeyFile) : Startup :=
  match f with
  | .missing => .exited 1
  | .unreadable => .exited 1
  | .file KEY => if KEY.length ≠ 32 then .exited 1 else .listening KEY


/-! ## Auxiliary terms and sample inputs -/

/-- The envelope that `encryptBuffer` is shown to return (`encryptBuffer_eq`) for the nonce `rnd`
and the plaintext `P`: hex of the nonce, hex of the GCM tag, base64 of the GCM ciphertext. -/
def sealed (KEY rnd P : Bytes) : Envelope :=
  { iv := bufferToString rnd .hex,
    authTag := bufferToString (gcmTag KEY rnd (gcmCrypt KEY rnd P)) .hex,
    content := bufferToString (gcmCrypt KEY rnd P) .base64 }

/-- Sample key: the 32 bytes `00 01 ... 1f`. -/
def sampleKey : Bytes := (List.range 32).map byteOf

/-- Sample nonce: the 12 bytes `01 02 ... 0c`. -/
def sampleNonce : Bytes := (List.range 12).map (fun i => byteOf (i + 1))

/-- The five bytes of the text `hello`. -/
def hello : Bytes := [104, 101, 108, 108, 111]

/-- A payload whose nonce has 13 bytes: the GCM encryption of `hello` under `sampleKey` and the
nonce `01 02 ... 0d`. -/
def longNoncePayload : Payload :=
  { iv := .string (js "0102030405060708090a0b0c0d"),
    authTag := .string (js "72cf442c40ce56ec9a05164a786dd551"),
    content := .string (js "oLmU/8A=") }

/-- A `/decrypt-file` request: the envelope of `hello` under `sampleKey` and `sampleNonce`, which
has the tag `52ea56e0...`, with the lowest bit of the first tag byte flipped. -/
def tamperedBody : DecryptBody :=
  { filename := .string (js "note.txt"), filetype := .string (js "text/plain"),
    iv := .string (js "0102030405060708090a0b0c"),
    authTag := .string (js "53ea56e00e3a29eba41faf3a910a35cb"),
    content := .string (js "bY82uYM=") }

/-- An upload whose `filedata` is four padding characters: a non-empty string that decodes to
no byte. -/
def paddingOnlyUpload : UploadBody :=
  { filename := .string (js "empty.bin"), filetype := .undefined, filedata := .string (js "====") }


/-! ## Lemmas on the codecs -/

theorem unhex_hexDigit (n : Nat) (h : n < 16) : unhex (hexDigit n) = some n := by
  interval_cases n <;> decide

theorem byteOf_div_mod (b : Byte) : byteOf (b.val / 16 * 16 + b.val % 16) = b := by
  apply Fin.ext
  show (b.val / 16 * 16 + b.val % 16) % 256 = b.val
  have := b.isLt
  omega

theorem hexDecode_hexEncode (bs : Bytes) : hexDecode (hexEncode bs) = bs := by
  induction bs with
  | nil => rfl
  | cons b bs ih =>
    have h1 : b.val / 16 < 16 := by have := b.isLt; omega
    have h2 : b.val % 16 < 16 := by omega
    simp only [hexEncode, hexDecode, unhex_hexDigit _ h1, unhex_hexDigit _ h2, ih, byteOf_div_mod]

theorem hexEncode_length (bs : Bytes) : (hexEncode bs).length = 2 * bs.length := by
  induction bs with
  | nil => rfl
  | cons b bs ih => simp only [hexEncode, List.length_cons, ih]; omega

theorem unbase64_b64Char (n : Nat) (h : n < 64) : unbase64 (b64Char n) = some n := by
  interval_cases n <;> decide

theorem b64Char_ne_pad (n : Nat) (h : n < 64) : ((b64Char n).val % 256 != 61) = true := by
  interval_cases n <;> decide

theorem base64Sextets_cons (n : Nat) (h : n < 64) (cs : JsString) :
    base64Sextets (b64Char n :: cs) = n :: base64Sextets cs := by
  simp only [base64Sextets, List.takeWhile_cons, b64Char_ne_pad n h, if_true, List.filterMap_cons,
    unbase64_b64Char n h]

theorem base64Sextets_pad (cs : JsString) : base64Sextets (unitOf 61 :: cs) = [] := by
  have h : ((unitOf 61).val % 256 != 61) = false := by decide
  simp only [base64Sextets, List.takeWhile_cons, h, Bool.false_eq_true, if_false,
    List.filterMap_nil]

theorem byteOf_sextets0 (a b : Byte) :
    byteOf (a.val / 4 * 4 + (a.val % 4 * 16 + b.val / 16) / 16) = a := by
  apply Fin.ext
  show (a.val / 4 * 4 + (a.val % 4 * 16 + b.val / 16) / 16) % 256 = a.val
  have := a.isLt; have := b.isLt
  omega

theorem byteOf_sextets1 (a b c : Byte) :
    byteOf ((a.val % 4 * 16 + b.val / 16) % 16 * 16 + (b.val % 16 * 4 + c.val / 64) / 4) = b := by
  apply Fin.ext
  show ((a.val % 4 * 16 + b.val / 16) % 16 * 16 + (b.val % 16 * 4 + c.val / 64) / 4) % 256 = b.val
  have := a.isLt; have := b.isLt; have := c.isLt
  omega

theorem byteOf_sextets2 (b c : Byte) :
    byteOf ((b.val % 16 * 4 + c.val / 64) % 4 * 64 + c.val % 64) = c := by
  apply Fin.ext
  show ((b.val % 16 * 4 + c.val / 64) % 4 * 64 + c.val % 64) % 256 = c.val
  have := b.isLt; have := c.isLt
  omega

theorem base64Decode_base64Encode (bs : Bytes) : base64Decode (base64Encode bs) = bs := by
  induction bs using base64Encode.induct with
  | case1 a b c rest ih =>
    have ha := a.isLt; have hb := b.isLt; have hc := c.isLt
    unfold base64Decode at ih ⊢
    rw [base64Encode, base64Sextets_cons _ (by omega), base64Sextets_cons _ (by omega),
      base64Sextets_cons _ (by omega), base64Sextets_cons _ (by omega), fromSextets, ih,
      byteOf_sextets0, byteOf_sextets1, byteOf_sextets2]
  | case2 a b =>
    have ha := a.isLt; have hb := b.isLt
    unfold base64Decode
    rw [base64Encode, base64Sextets_cons _ (by omega), base64Sextets_cons _ (by omega),
      base64Sextets_cons _ (by omega), base64Sextets_pad, fromSextets, byteOf_sextets0]
    have := byteOf_sextets1 a b 0
    simp only [Fin.val_zero, Nat.zero_div, Nat.add_zero] at this
    rw [this]
  | case3 a =>
    have ha := a.isLt
    unfold base64Decode
    rw [base64Encode, base64Sextets_cons _ (by omega), base64Sextets_cons _ (by omega),
      base64Sextets_pad, fromSextets]
    have := byteOf_sextets0 a 0
    simp only [Fin.val_zero, Nat.zero_div, Nat.add_zero] at this
    rw [this]
  | case4 => rfl

theorem base64Encode_ne_nil (bs : Bytes) (h : bs ≠ []) : base64Encode bs ≠ [] := by
  intro he
  have := base64Decode_base64Encode bs
  rw [he] at this
  exact h this.symm

/-! ## Lemmas on counter mode and the tag -/

theorem xorByte_xorByte (a b : Byte) : xorByte (xorByte a b) b = a := by
  apply Fin.ext
  show ((a.val ^^^ b.val) % 256 ^^^ b.val) % 256 = a.val
  have h : a.val ^^^ b.val < 256 := @Nat.xor_lt_two_pow a.val b.val 8 a.isLt b.isLt
  rw [Nat.mod_eq_of_lt h, Nat.xor_assoc, Nat.xor_self, Nat.xor_zero, Nat.mod_eq_of_lt a.isLt]

theorem xorBytes_length (a ks : Bytes) (h : a.length ≤ ks.length) :
    (xorBytes a ks).length = a.length := by
  simp only [xorBytes, List.length_zipWith]
  omega

theorem xorBytes_xorBytes (a ks : Bytes) (h : a.length ≤ ks.length) :
    xorBytes (xorBytes a ks) ks = a := by
  induction a generalizing ks with
  | nil => simp [xorBytes]
  | cons x xs ih =>
    cases ks with
    | nil => simp at h
    | cons k ks =>
      have h2 : xs.length ≤ ks.length := by simpa using h
      have := ih ks h2
      simp only [xorBytes, List.zipWith_cons_cons, xorByte_xorByte] at this ⊢
      rw [this]

theorem natToBlock_length (n : Nat) : (natToBlock n).length = 16 := by
  simp [natToBlock]

theorem keystream_length (E : Nat → Nat) (n cb : Nat) : (keystream E n cb).length = 16 * n := by
  induction n generalizing cb with
  | zero => rfl
  | succ n ih => simp only [keystream, List.length_append, natToBlock_length, ih]; omega

theorem gctr_length (E : Nat → Nat) (icb : Nat) (d : Bytes) : (gctr E icb d).length = d.length := by
  unfold gctr
  apply xorBytes_length
  rw [keystream_length]
  omega

theorem gctr_gctr (E : Nat → Nat) (icb : Nat) (d : Bytes) : gctr E icb (gctr E icb d) = d := by
  have hl := gctr_length E icb d
  rw [gctr, hl]
  unfold gctr
  apply xorBytes_xorBytes
  rw [keystream_length]
  omega

theorem gcmCrypt_length (key iv d : Bytes) : (gcmCrypt key iv d).length = d.length :=
  gctr_length _ _ d

theorem gcmCrypt_gcmCrypt (key iv d : Bytes) : gcmCrypt key iv (gcmCrypt key iv d) = d :=
  gctr_gctr _ _ d

theorem gcmTag_length (key iv ct : Bytes) : (gcmTag key iv ct).length = 16 :=
  natToBlock_length _

/-! ## The model checked against published test vectors -/

/-- FIPS 197, appendix C.3: AES-256 of `00112233445566778899aabbccddeeff` under the key
`00 01 ... 1f`. -/
theorem aes256_fips197_vector :
    aesEncryptBlock sampleKey 0x00112233445566778899aabbccddeeff
      = 0x8ea2b7ca516745bfeafc49904b496089 := by
  decide!

/-- GCM specification, test case 14: the all-zero key and 96-bit IV on one all-zero block. -/
theorem gcm_test_case_14 :
    hexEncode (gcmCrypt (List.replicate 32 0) (List.replicate 12 0) (List.replicate 16 0))
      = js "cea7403d4d606b6e074ec5d3baf39d18" ∧
    hexEncode (gcmTag (List.replicate 32 0) (List.replicate 12 0)
        (gcmCrypt (List.replicate 32 0) (List.replicate 12 0) (List.replicate 16 0)))
      = js "d0d1c8a799996bf0265b98b5d48ab919" := by
  decide!

/-! ## `encryptBuffer` and `decryptPayload`, evaluated -/

theorem encryptBuffer_eq (KEY rnd P : Bytes) (hk : KEY.length = 32) (hr : rnd.length = 12) :
    encryptBuffer KEY rnd P =
      { ops := [.randomBytes 12, .createCipheriv, .cipherUpdate, .cipherFinal, .getAuthTag],
        result := .ok (sealed KEY rnd P) } := by
  simp [encryptBuffer, bind, Run.bind, randomBytes, Run.call, createCipheriv, Cipher.update,
    Cipher.final, Cipher.getAuthTag, hk, hr, pure, sealed]

theorem decryptPayload_eq (KEY : Bytes) (i t c : JsString) (hk : KEY.length = 32)
    (hi : (hexDecode i).length ≠ 0) (hi2 : (hexDecode i).length ≤ 128)
    (ht : (hexDecode t).length ∈ [4, 8, 12, 13, 14, 15, 16]) :
    decryptPayload KEY { iv := .string i, authTag := .string t, content := .string c } =
      { ops := [.createDecipheriv, .setAuthTag, .decipherUpdate, .decipherFinal],
        result :=
          if hexDecode t = (gcmTag KEY (hexDecode i) (base64Decode c)).take
              (hexDecode t).length
          then .ok (gcmCrypt KEY (hexDecode i) (base64Decode c))
          else .error .authFailed } := by
  have hiv : ¬ ((hexDecode i).length = 0 ∨ 128 < (hexDecode i).length) := by omega
  by_cases h : hexDecode t = (gcmTag KEY (hexDecode i) (base64Decode c)).take
      (hexDecode t).length
  · rw [if_pos h]
    simp only [decryptPayload, bind, Run.bind, bufferFrom, Run.plain, Run.call, createDecipheriv,
      Decipher.setAuthTag, Decipher.update, Decipher.final, hk, hiv, ht, pure]
    simp [← h]
  · rw [if_neg h]
    simp only [decryptPayload, bind, Run.bind, bufferFrom, Run.plain, Run.call, createDecipheriv,
      Decipher.setAuthTag, Decipher.update, Decipher.final, hk, hiv, ht, pure]
    simp [h]

theorem decryptPayload_sealed (KEY rnd P : Bytes) (hk : KEY.length = 32) (hr : rnd.length = 12) :
    decryptPayload KEY (sealed KEY rnd P).toPayload =
      { ops := [.createDecipheriv, .setAuthTag, .decipherUpdate, .decipherFinal],
        result := .ok P } := by
  have e1 : hexDecode (bufferToString rnd .hex) = rnd := hexDecode_hexEncode rnd
  have e2 : hexDecode (bufferToString (gcmTag KEY rnd (gcmCrypt KEY rnd P)) .hex)
      = gcmTag KEY rnd (gcmCrypt KEY rnd P) := hexDecode_hexEncode _
  have e3 : base64Decode (bufferToString (gcmCrypt KEY rnd P) .base64) = gcmCrypt KEY rnd P :=
    base64Decode_base64Encode _
  unfold Envelope.toPayload sealed
  rw [decryptPayload_eq KEY _ _ _ hk]
  · simp only [e1, e2, e3, gcmTag_length, gcmCrypt_gcmCrypt]
    rw [if_pos]
    rw [List.take_of_length_le]
    rw [gcmTag_length]
  · simp only [e1, hr]; decide
  · simp only [e1, hr]; decide
  · simp only [e2, gcmTag_length]; decide

theorem decryptPayload_missing (KEY : Bytes) (p : Payload)
    (h : (∀ s, p.iv ≠ .string s) ∨ (∀ s, p.authTag ≠ .string s) ∨ (∀ s, p.content ≠ .string s)) :
    decryptPayload KEY p = { ops := [], result := .error .invalidArgType } := by
  obtain ⟨i, t, c⟩ := p
  cases i <;> cases t <;> cases c <;>
    simp_all [decryptPayload, bind, Run.bind, bufferFrom, Run.plain]

theorem decryptPayload_badIV (KEY : Bytes) (i t c : JsString)
    (hi : (hexDecode i).length = 0 ∨ 128 < (hexDecode i).length) :
    decryptPayload KEY { iv := .string i, authTag := .string t, content := .string c } =
      { ops := [.createDecipheriv], result := .error .invalidIV } := by
  simp only [decryptPayload, bind, Run.bind, bufferFrom, Run.plain, Run.call, createDecipheriv,
    if_pos hi]
  rfl

theorem decryptPayload_badTag (KEY : Bytes) (i t c : JsString) (hk : KEY.length = 32)
    (hi : (hexDecode i).length ≠ 0) (hi2 : (hexDecode i).length ≤ 128)
    (ht : (hexDecode t).length ∉ [4, 8, 12, 13, 14, 15, 16]) :
    decryptPayload KEY { iv := .string i, authTag := .string t, content := .string c } =
      { ops := [.createDecipheriv, .setAuthTag], result := .error .invalidAuthTagLength } := by
  have hiv : ¬ ((hexDecode i).length = 0 ∨ 128 < (hexDecode i).length) := by omega
  simp only [decryptPayload, bind, Run.bind, bufferFrom, Run.plain, Run.call, createDecipheriv,
    Decipher.setAuthTag, hk, ht, hiv]
  simp

theorem uploadAndBroadcast_eq (KEY rnd : Bytes) (sockets : List String) (filename filetype : JsValue)
    (s : JsString) (P : Bytes) (hk : KEY.length = 32) (hr : rnd.length = 12) (hs : s ≠ [])
    (hd : base64Decode s = P) :
    uploadAndBroadcast KEY sockets rnd
        { filename := filename, filetype := filetype, filedata := .string s } =
      { response := { status := 200, headers := [], body := .json [("status", "ok")] },
        emitted := ioEmit sockets "encrypted_broadcast"
          { filename := filename, filetype := filetype, iv := (sealed KEY rnd P).iv,
            authTag := (sealed KEY rnd P).authTag, content := (sealed KEY rnd P).content },
        ops := [.randomBytes 12, .createCipheriv, .cipherUpdate, .cipherFinal, .getAuthTag] } := by
  have henc := encryptBuffer_eq KEY rnd P hk hr
  have ht : (JsValue.string s).truthy = true := by
    cases s with
    | nil => exact absurd rfl hs
    | cons a l => rfl
  simp [uploadAndBroadcast, ht, bind, Run.bind, bufferFrom, Run.plain, hd, henc]

/-! ## Lemmas on the deliveries -/

theorem filter_target_length (l : List String) (s : String) (hs : l.Nodup) (hm : s ∈ l) :
    (l.filter (fun x => x == s)).length = 1 := by
  rw [← List.countP_eq_length_filter]
  exact List.count_eq_one_of_mem hs hm

theorem filter_ne_length (l : List String) (s : String) (hs : l.Nodup) (hm : s ∈ l) :
    (l.filter (fun x => x != s)).length = l.length - 1 := by
  induction l with
  | nil => simp at hm
  | cons a l ih =>
    have hnd := List.nodup_cons.mp hs
    by_cases h : a = s
    · subst h
      have hall : l.filter (fun x => x != a) = l := by
        rw [List.filter_eq_self]
        intro x hx
        have : x ≠ a := fun hxa => hnd.1 (hxa ▸ hx)
        simpa using this
      simp [List.filter_cons, hall]
    · have hm2 : s ∈ l := by
        rcases List.mem_cons.mp hm with h1 | h1
        · exact absurd h1.symm h
        · exact h1
      have hpos : 0 < l.length := List.length_pos_of_mem hm2
      have := ih hnd.2 hm2
      simp only [List.filter_cons, bne_iff_ne, ne_eq, h, not_false_eq_true, if_true,
        List.length_cons, this]
      omega

theorem ioEmit_targets {π : Type} (sockets : List String) (ev : String) (p : π) :
    (ioEmit sockets ev p).map (fun e => e.target) = sockets := by
  induction sockets with
  | nil => rfl
  | cons a l ih => simp only [ioEmit, List.map_cons, List.cons.injEq, true_and] at ih ⊢; exact ih

theorem ioEmit_filter_length {π : Type} (sockets : List String) (ev : String) (p : π) (s : String) :
    ((ioEmit sockets ev p).filter (fun e => e.target == s)).length
      = (sockets.filter (fun x => x == s)).length := by
  induction sockets with
  | nil => rfl
  | cons a l ih =>
    simp only [ioEmit, List.map_cons, List.filter_cons] at ih ⊢
    by_cases h : (a == s) = true
    · simp only [h, if_true, List.length_cons, ih]
    · simp only [h, if_false]
      exact ih

/-! ## Tampering with the tag and with the ciphertext -/

theorem gmulAux_zero (n x z : Nat) : gmulAux n x 0 z = z := by
  induction n generalizing z with
  | zero => rfl
  | succ n ih =>
    simp only [gmulAux, Nat.zero_mod, if_true, Nat.zero_div, Nat.xor_zero, ite_self]
    exact ih z

theorem ghash_zero (blocks : List Nat) : ghash 0 blocks = 0 := by
  unfold ghash
  induction blocks with
  | nil => rfl
  | cons b bs ih =>
    rw [List.foldl_cons]
    have : gmul (0 ^^^ b) 0 = 0 := gmulAux_zero 128 _ 0
    rw [this]
    exact ih

/-- With a zero hash subkey, that is for a key under which AES maps the zero block to itself,
the tag does not depend on the ciphertext: whether an altered ciphertext is detected under
every key rests on no 32-byte key having a zero subkey. -/
theorem gcmTag_of_zero_subkey (key iv ct ct2 : Bytes) (h : aesEncryptBlock key 0 = 0) :
    gcmTag key iv ct = gcmTag key iv ct2 := by
  simp only [gcmTag, h, ghash_zero]

/-- A tag other than the one `encryptBuffer` produced is rejected: the envelope of `P` with its
16-byte tag replaced by any different 16-byte tag `t` fails authentication in `final`. -/
theorem decryptPayload_other_tag (KEY rnd P t : Bytes) (hk : KEY.length = 32)
    (hr : rnd.length = 12) (ht : t.length = 16)
    (hne : t ≠ gcmTag KEY rnd (gcmCrypt KEY rnd P)) :
    decryptPayload KEY
        { iv := .string (sealed KEY rnd P).iv, authTag := .string (bufferToString t .hex),
          content := .string (sealed KEY rnd P).content } =
      { ops := [.createDecipheriv, .setAuthTag, .decipherUpdate, .decipherFinal],
        result := .error .authFailed } := by
  have e1 : hexDecode (bufferToString rnd .hex) = rnd := hexDecode_hexEncode rnd
  have e2 : hexDecode (bufferToString t .hex) = t := hexDecode_hexEncode t
  have e3 : base64Decode (bufferToString (gcmCrypt KEY rnd P) .base64) = gcmCrypt KEY rnd P :=
    base64Decode_base64Encode _
  unfold sealed
  rw [decryptPayload_eq KEY _ _ _ hk]
  · simp only [e1, e2, e3, ht]
    rw [if_neg]
    rw [List.take_of_length_le (by rw [gcmTag_length])]
    exact hne
  · simp only [e1, hr]; decide
  · simp only [e1, hr]; decide
  · simp only [e2, ht]; decide

/-! ## The claims -/

/-- C1. Round trip: for every plaintext `P`, the empty one included, every 32-byte `KEY` and
every 12-byte nonce `rnd` produced by the random source, `encryptBuffer` returns an envelope,
and `decryptPayload` applied to the three strings of that envelope returns exactly `P`. -/
theorem encrypt_decrypt_round_trip (KEY rnd P : Bytes) (hk : KEY.length = 32)
    (hr : rnd.length = 12) :
    ∃ E : Envelope, (encryptBuffer KEY rnd P).result = .ok E ∧
      (decryptPayload KEY E.toPayload).result = .ok P := by
  refine ⟨sealed KEY rnd P, ?_, ?_⟩
  · rw [encryptBuffer_eq KEY rnd P hk hr]
  · rw [decryptPayload_sealed KEY rnd P hk hr]

/-- Witness of C1 at `sampleKey`, `sampleNonce` and the plaintext `hello`. -/
theorem encrypt_decrypt_round_trip_witness :
    sampleKey.length = 32 ∧ sampleNonce.length = 12 ∧
    ∃ E : Envelope, (encryptBuffer sampleKey sampleNonce hello).result = .ok E ∧
      (decryptPayload sampleKey E.toPayload).result = .ok hello :=
  ⟨by decide, by decide,
    encrypt_decrypt_round_trip sampleKey sampleNonce hello (by decide) (by decide)⟩

/-- C3, counterexample. The payload `longNoncePayload` has a nonce that decodes to 13 bytes, not
12, and yet `decryptPayload` creates the decipher, sets the tag, deciphers, compares the tag and
returns the plaintext `hello`: a malformed envelope is not rejected, let alone before any
cipher operation. -/
theorem malformed_envelope_accepted :
    (hexDecode (js "0102030405060708090a0b0c0d")).length = 13 ∧
    decryptPayload sampleKey longNoncePayload =
      { ops := [.createDecipheriv, .setAuthTag, .decipherUpdate, .decipherFinal],
        result := .ok hello } := by
  decide!

/-- C3, amended. With a 32-byte `KEY`, `decryptPayload` validates nothing up front. A payload
in which `iv`, `authTag` or `content` is not a string (missing, null, a boolean or a number)
fails in `Buffer.from` before any call into `crypto`. When the three are strings, decoding
never fails and the first thing done with the decoded nonce is `createDecipheriv`: a nonce of
no byte or of more than 128 bytes is rejected by it; otherwise the decipher is created, and an
`authTag` that decodes to a length other than 4, 8, 12, 13, 14, 15 or 16 bytes is rejected by
`setAuthTag`; otherwise the ciphertext is deciphered and `final` alone decides: the call returns
the GCM decryption under the decoded nonce when the decoded tag equals the tag of the ciphertext
cut to the same length, and fails with the authentication error when it does not. -/
theorem decryptPayload_validates_nothing_up_front (KEY : Bytes) (hk : KEY.length = 32) :
    (∀ p : Payload,
      ((∀ s, p.iv ≠ .string s) ∨ (∀ s, p.authTag ≠ .string s) ∨ (∀ s, p.content ≠ .string s)) →
      decryptPayload KEY p = { ops := [], result := .error .invalidArgType }) ∧
    (∀ i t c : JsString,
      ((hexDecode i).length = 0 ∨ 128 < (hexDecode i).length →
        decryptPayload KEY { iv := .string i, authTag := .string t, content := .string c } =
          { ops := [.createDecipheriv], result := .error .invalidIV }) ∧
      ((hexDecode i).length ≠ 0 → (hexDecode i).length ≤ 128 →
        (hexDecode t).length ∉ [4, 8, 12, 13, 14, 15, 16] →
        decryptPayload KEY { iv := .string i, authTag := .string t, content := .string c } =
          { ops := [.createDecipheriv, .setAuthTag], result := .error .invalidAuthTagLength }) ∧
      ((hexDecode i).length ≠ 0 → (hexDecode i).length ≤ 128 →
        (hexDecode t).length ∈ [4, 8, 12, 13, 14, 15, 16] →
        decryptPayload KEY { iv := .string i, authTag := .string t, content := .string c } =
          { ops := [.createDecipheriv, .setAuthTag, .decipherUpdate, .decipherFinal],
            result :=
              if hexDecode t = (gcmTag KEY (hexDecode i) (base64Decode c)).take
                  (hexDecode t).length
              then .ok (gcmCrypt KEY (hexDecode i) (base64Decode c))
              else .error .authFailed })) := by
  refine ⟨fun p h => decryptPayload_missing KEY p h, fun i t c => ⟨?_, ?_, ?_⟩⟩
  · exact decryptPayload_badIV KEY i t c
  · exact decryptPayload_badTag KEY i t c hk
  · exact decryptPayload_eq KEY i t c hk

/-- Witness of the amended C3: under `sampleKey`, a payload with a one-byte nonce and an empty
tag is rejected by `setAuthTag`, after `createDecipheriv` has returned the decipher. -/
theorem decryptPayload_validates_nothing_up_front_witness :
    sampleKey.length = 32 ∧
    decryptPayload sampleKey
        { iv := .string (js "00"), authTag := .string (js ""), content := .string (js "") } =
      { ops := [.createDecipheriv, .setAuthTag], result := .error .invalidAuthTagLength } :=
  ⟨by decide,
   ((decryptPayload_validates_nothing_up_front sampleKey (by decide)).2 (js "00") (js "")
      (js "")).2.1 (by decide) (by decide) (by decide)⟩

/-- C4. Envelope shape: for every plaintext `P`, 32-byte `KEY` and 12-byte nonce `rnd` of the
random source, `encryptBuffer` makes the calls `randomBytes(12)`, `createCipheriv`, `update`,
`final`, `getAuthTag` and returns the envelope whose `iv` is the hex encoding of `rnd` itself
(24 characters, decoding back to `rnd`), whose `authTag` is the hex encoding of the 16-byte GCM
tag of the ciphertext under `KEY` and `rnd` (32 characters), and whose `content` is the base64
encoding of the GCM ciphertext of `P` under `KEY` and `rnd` (decoding back to it), a ciphertext
as long as `P`. -/
theorem envelope_shape (KEY rnd P : Bytes) (hk : KEY.length = 32) (hr : rnd.length = 12) :
    encryptBuffer KEY rnd P =
      { ops := [.randomBytes 12, .createCipheriv, .cipherUpdate, .cipherFinal, .getAuthTag],
        result := .ok
          { iv := bufferToString rnd .hex,
            authTag := bufferToString (gcmTag KEY rnd (gcmCrypt KEY rnd P)) .hex,
            content := bufferToString (gcmCrypt KEY rnd P) .base64 } } ∧
    (bufferToString rnd .hex).length = 24 ∧
    hexDecode (bufferToString rnd .hex) = rnd ∧
    (gcmTag KEY rnd (gcmCrypt KEY rnd P)).length = 16 ∧
    (bufferToString (gcmTag KEY rnd (gcmCrypt KEY rnd P)) .hex).length = 32 ∧
    hexDecode (bufferToString (gcmTag KEY rnd (gcmCrypt KEY rnd P)) .hex)
      = gcmTag KEY rnd (gcmCrypt KEY rnd P) ∧
    (gcmCrypt KEY rnd P).length = P.length ∧
    base64Decode (bufferToString (gcmCrypt KEY rnd P) .base64) = gcmCrypt KEY rnd P := by
  refine ⟨encryptBuffer_eq KEY rnd P hk hr, ?_, hexDecode_hexEncode _, gcmTag_length _ _ _, ?_,
    hexDecode_hexEncode _, gcmCrypt_length _ _ _, base64Decode_base64Encode _⟩
  · show (hexEncode rnd).length = 24
    rw [hexEncode_length, hr]
  · show (hexEncode (gcmTag KEY rnd (gcmCrypt KEY rnd P))).length = 32
    rw [hexEncode_length, gcmTag_length]

/-- Witness of C4 at `sampleKey`, `sampleNonce` and the plaintext `hello`: the envelope is
`0102030405060708090a0b0c`, `52ea56e00e3a29eba41faf3a910a35cb`, `bY82uYM=`. -/
theorem envelope_shape_witness :
    sampleKey.length = 32 ∧ sampleNonce.length = 12 ∧
    (encryptBuffer sampleKey sampleNonce hello).result =
      .ok { iv := js "0102030405060708090a0b0c",
            authTag := js "52ea56e00e3a29eba41faf3a910a35cb",
            content := js "bY82uYM=" } :=
  ⟨by decide, by decide,
    (congrArg Run.result (envelope_shape sampleKey sampleNonce hello (by decide) (by decide)).1).trans
      (by decide!)⟩

/-- C5. Upload fan-out: with a 32-byte `KEY`, a 12-byte nonce and a duplicate-free list
`sockets` of connected sockets, a request whose `filedata` is the base64 encoding of a
non-empty `P` is answered with status 200 and `status: ok`; the deliveries go to the connected
sockets, one each and none left out; every delivery is an `encrypted_broadcast` carrying the
request's `filename` and `filetype` unchanged, and its `iv`, `authTag` and `content` decrypt
under `decryptPayload` to exactly `P`. -/
theorem upload_fans_out_to_every_connection (KEY rnd P : Bytes) (sockets : List String)
    (filename filetype : JsValue) (hk : KEY.length = 32) (hr : rnd.length = 12) (hP : P ≠ [])
    (hs : sockets.Nodup) :
    (uploadAndBroadcast KEY sockets rnd
        { filename := filename, filetype := filetype,
          filedata := .string (bufferToString P .base64) }).response
      = { status := 200, headers := [], body := .json [("status", "ok")] } ∧
    (uploadAndBroadcast KEY sockets rnd
        { filename := filename, filetype := filetype,
          filedata := .string (bufferToString P .base64) }).emitted.map (fun e => e.target)
      = sockets ∧
    (∀ s ∈ sockets,
      ((uploadAndBroadcast KEY sockets rnd
        { filename := filename, filetype := filetype,
          filedata := .string (bufferToString P .base64) }).emitted.filter
            (fun e => e.target == s)).length = 1) ∧
    (∀ e ∈ (uploadAndBroadcast KEY sockets rnd
        { filename := filename, filetype := filetype,
          filedata := .string (bufferToString P .base64) }).emitted,
      e.event = "encrypted_broadcast" ∧ e.payload.filename = filename ∧
      e.payload.filetype = filetype ∧
      (decryptPayload KEY
        { iv := .string e.payload.iv, authTag := .string e.payload.authTag,
          content := .string e.payload.content }).result = .ok P) := by
  have hne : base64Encode P ≠ [] := base64Encode_ne_nil P hP
  have hdec := decryptPayload_sealed KEY rnd P hk hr
  have hup := uploadAndBroadcast_eq KEY rnd sockets filename filetype (bufferToString P .base64)
    P hk hr hne (base64Decode_base64Encode P)
  rw [hup]
  refine ⟨rfl, ?_, ?_, ?_⟩
  · exact ioEmit_targets _ _ _
  · intro s hsm
    rw [ioEmit_filter_length]
    exact filter_target_length sockets s hs hsm
  · intro e he
    simp only [ioEmit, List.mem_map] at he
    obtain ⟨s, _, rfl⟩ := he
    exact ⟨rfl, rfl, rfl, by simpa [Envelope.toPayload] using congrArg Run.result hdec⟩

/-- Witness of C5: the plaintext `hello` uploaded as `note.txt` with the sockets `A` and `B`
connected. -/
theorem upload_fans_out_to_every_connection_witness :
    sampleKey.length = 32 ∧ sampleNonce.length = 12 ∧ hello ≠ [] ∧ ["A", "B"].Nodup ∧
    (uploadAndBroadcast sampleKey ["A", "B"] sampleNonce
        { filename := .string (js "note.txt"), filetype := .string (js "text/plain"),
          filedata := .string (bufferToString hello .base64) }).response
      = { status := 200, headers := [], body := .json [("status", "ok")] } ∧
    (uploadAndBroadcast sampleKey ["A", "B"] sampleNonce
        { filename := .string (js "note.txt"), filetype := .string (js "text/plain"),
          filedata := .string (bufferToString hello .base64) }).emitted.map (fun e => e.target)
      = ["A", "B"] ∧
    (∀ e ∈ (uploadAndBroadcast sampleKey ["A", "B"] sampleNonce
        { filename := .string (js "note.txt"), filetype := .string (js "text/plain"),
          filedata := .string (bufferToString hello .base64) }).emitted,
      e.event = "encrypted_broadcast" ∧ e.payload.filename = .string (js "note.txt") ∧
      e.payload.filetype = .string (js "text/plain") ∧
      (decryptPayload sampleKey
        { iv := .string e.payload.iv, authTag := .string e.payload.authTag,
          content := .string e.payload.content }).result = .ok hello) :=
  have h := upload_fans_out_to_every_connection sampleKey sampleNonce hello ["A", "B"]
    (.string (js "note.txt")) (.string (js "text/plain")) (by decide) (by decide) (by decide)
    (by decide)
  ⟨by decide, by decide, by decide, by decide, h.1, h.2.1, h.2.2.2⟩

/-- C6, counterexample. With the sockets `A` and `B` connected, a `stream_chunk` event that `A`
sends with no argument reaches the handler with `data` undefined, and what `B` receives is
`null`, not the payload unchanged. -/
theorem streamChunk_absent_payload_arrives_as_null :
    streamChunk ["A", "B"] "A" none
      = [{ target := "B", event := "stream_chunk", payload := some Json.null }] ∧
    (some Json.null : Option Json) ≠ none :=
  ⟨by simp [streamChunk, socketBroadcastEmit, ioEmit, socketWire], by simp⟩

/-- C6, amended. Chunk relay: with a duplicate-free list `sockets` of connected sockets
containing the sender `s`, the `stream_chunk` handler, which validates nothing, makes one
delivery fewer than there are sockets; every connected socket other than `s` receives exactly
one; and every delivery goes to a connected socket other than `s`, as a `stream_chunk` event
whose payload is the payload `d` as socket.io serialises it: `d` itself when `d` is a JSON
value, `null` when the event came with no argument. -/
theorem streamChunk_relays_to_all_but_sender (sockets : List String) (s : String)
    (d : Option Json) (hs : sockets.Nodup) (hm : s ∈ sockets) :
    (streamChunk sockets s d).length = sockets.length - 1 ∧
    (∀ c ∈ sockets, c ≠ s →
      ((streamChunk sockets s d).filter (fun e => e.target == c)).length = 1) ∧
    (∀ e ∈ streamChunk sockets s d,
      e.target ≠ s ∧ e.target ∈ sockets ∧ e.event = "stream_chunk" ∧
      (∀ v : Json, d = some v → e.payload = some v) ∧
      (d = none → e.payload = some Json.null)) := by
  have hdef : streamChunk sockets s d
      = ioEmit (sockets.filter (fun x => x != s)) "stream_chunk" (socketWire d) := rfl
  refine ⟨?_, ?_, ?_⟩
  · rw [hdef, ioEmit, List.length_map]
    exact filter_ne_length sockets s hs hm
  · intro c hc hcs
    rw [hdef, ioEmit_filter_length]
    apply filter_target_length _ _ (hs.filter _)
    rw [List.mem_filter]
    exact ⟨hc, by simpa using hcs⟩
  · intro e he
    rw [hdef] at he
    simp only [ioEmit, List.mem_map, List.mem_filter] at he
    obtain ⟨c, ⟨hc, hcs⟩, rfl⟩ := he
    refine ⟨by simpa using hcs, hc, rfl, ?_, ?_⟩
    · intro v hv
      subst hv
      rfl
    · intro hv
      subst hv
      rfl

/-- Witness of the amended C6: the sockets `A`, `B`, `C` with `B` sending a chunk object with
the fields `iv` and `ts`. -/
theorem streamChunk_relays_to_all_but_sender_witness :
    ["A", "B", "C"].Nodup ∧ "B" ∈ ["A", "B", "C"] ∧
    (streamChunk ["A", "B", "C"] "B"
      (some (.object [(js "iv", .string (js "0102")), (js "ts", .number 7)]))).length = 2 ∧
    (∀ e ∈ streamChunk ["A", "B", "C"] "B"
        (some (.object [(js "iv", .string (js "0102")), (js "ts", .number 7)])),
      e.target ≠ "B" ∧
      e.payload = some (.object [(js "iv", .string (js "0102")), (js "ts", .number 7)])) :=
  have h := streamChunk_relays_to_all_but_sender ["A", "B", "C"] "B"
    (some (.object [(js "iv", .string (js "0102")), (js "ts", .number 7)])) (by decide) (by decide)
  ⟨by decide, by decide, h.1, fun e he => ⟨(h.2.2 e he).1, (h.2.2 e he).2.2.2.1 _ rfl⟩⟩

/-- C7. Decrypt service fails closed: whenever `decryptPayload` throws on the `iv`, `authTag`
and `content` of a `/decrypt-file` request, whatever the exception `e` and whichever field
caused it, the response is status 500 with the text `decrypt failed`, no header set and no
binary body. -/
theorem decryptFile_fails_closed (KEY : Bytes) (body : DecryptBody) (e : JsError)
    (h : (decryptPayload KEY
        { iv := body.iv, authTag := body.authTag, content := body.content }).result = .error e) :
    (decryptFile KEY body).response
      = { status := 500, headers := [], body := .text "decrypt failed" } := by
  simp [decryptFile, h]

/-- Witness of C7: the request `tamperedBody`, whose tag has one bit flipped, fails
authentication under `sampleKey`. -/
theorem decryptFile_fails_closed_witness :
    (decryptPayload sampleKey
        { iv := tamperedBody.iv, authTag := tamperedBody.authTag,
          content := tamperedBody.content }).result = .error .authFailed ∧
    (decryptFile sampleKey tamperedBody).response
      = { status := 500, headers := [], body := .text "decrypt failed" } :=
  ⟨by decide!, decryptFile_fails_closed sampleKey tamperedBody .authFailed (by decide!)⟩

/-- C8. Upload without data: a request whose body has no `filedata` is answered with status
400, with no call into `crypto` and no delivery; and whenever `encryptBuffer` throws on the
decoded `filedata`, the response is status 500 with `message: server error`, not
`status: ok`, and nothing is delivered. -/
theorem upload_without_filedata_rejected :
    (∀ (KEY : Bytes) (sockets : List String) (rnd : Bytes) (filename filetype : JsValue),
      uploadAndBroadcast KEY sockets rnd
          { filename := filename, filetype := filetype, filedata := .undefined }
        = { response := { status := 400, headers := [], body := .json [("message", "no filedata")] },
            emitted := [], ops := [] }) ∧
    (∀ (KEY : Bytes) (sockets : List String) (rnd : Bytes) (body : UploadBody) (buffer : Bytes)
        (e : JsError),
      body.filedata.truthy = true →
      (bufferFrom body.filedata .base64).result = .ok buffer →
      (encryptBuffer KEY rnd buffer).result = .error e →
      (uploadAndBroadcast KEY sockets rnd body).response
          = { status := 500, headers := [], body := .json [("message", "server error")] } ∧
        (uploadAndBroadcast KEY sockets rnd body).emitted = []) := by
  refine ⟨fun KEY sockets rnd filename filetype => rfl, ?_⟩
  intro KEY sockets rnd body buffer e ht hb he
  simp [uploadAndBroadcast, ht, bind, Run.bind, hb, he]

/-- Witness of C8: with a key of no byte, `createCipheriv` throws inside `encryptBuffer` and the
upload of `hello` is answered with status 500. -/
theorem upload_without_filedata_rejected_witness :
    (JsValue.string (js "aGVsbG8=")).truthy = true ∧
    (bufferFrom (.string (js "aGVsbG8=")) .base64).result = .ok hello ∧
    (encryptBuffer [] sampleNonce hello).result = .error .invalidKeyLength ∧
    (uploadAndBroadcast [] ["A"] sampleNonce
        { filename := .string (js "note.txt"), filetype := .undefined,
          filedata := .string (js "aGVsbG8=") }).response
      = { status := 500, headers := [], body := .json [("message", "server error")] } ∧
    (uploadAndBroadcast [] ["A"] sampleNonce
        { filename := .string (js "note.txt"), filetype := .undefined,
          filedata := .string (js "aGVsbG8=") }).emitted = [] :=
  ⟨by decide, by decide, by decide,
    upload_without_filedata_rejected.2 [] ["A"] sampleNonce
      { filename := .string (js "note.txt"), filetype := .undefined,
        filedata := .string (js "aGVsbG8=") }
      hello .invalidKeyLength (by decide) (by decide) (by decide)⟩

/-- C9. Key load fails fast: startup reaches `listening KEY` exactly when `KEY_PATH` holds a
file whose content is `KEY` and has 32 bytes; when there is no such file of 32 bytes (missing,
unreadable or of another length) the process exits with code 1 and never listens; a 16-byte
key file is such a case. The `KEY` of a listening server, which is the one the handlers use, has
therefore 32 bytes. -/
theorem key_load_fails_fast (f : KeyFile) :
    (∀ KEY : Bytes, startup f = .listening KEY ↔ f = .file KEY ∧ KEY.length = 32) ∧
    ((∀ KEY : Bytes, f = .file KEY → KEY.length ≠ 32) → startup f = .exited 1) ∧
    (startup (.file (List.replicate 16 0)) = .exited 1) := by
  refine ⟨?_, ?_, by decide⟩
  · intro KEY
    cases f with
    | missing => simp [startup]
    | unreadable => simp [startup]
    | file c =>
      by_cases hc : c.length = 32
      · simp only [startup, hc, ne_eq, not_true_eq_false, if_false, Startup.listening.injEq,
          KeyFile.file.injEq]
        constructor
        · intro h; exact ⟨h, h ▸ hc⟩
        · intro h; exact h.1
      · simp only [startup, ne_eq, hc, not_false_eq_true, if_true, KeyFile.file.injEq, false_iff,
          not_and, reduceCtorEq]
        intro h; exact h ▸ hc
  · intro h
    cases f with
    | missing => rfl
    | unreadable => rfl
    | file c => simp [startup, h c rfl]

/-- C10, counterexample. The upload `paddingOnlyUpload` has the `filedata` `====`, a non-empty
string that decodes to no byte: under `sampleKey` and `sampleNonce` the handler encrypts the
empty plaintext, delivers its envelope (empty `content`) to the connected sockets `A` and `B`
and answers with status 200. The empty plaintext is broadcast through the upload path. -/
theorem empty_plaintext_broadcast_through_upload :
    paddingOnlyUpload.filedata.truthy = true ∧
    (bufferFrom paddingOnlyUpload.filedata .base64).result = .ok [] ∧
    uploadAndBroadcast sampleKey ["A", "B"] sampleNonce paddingOnlyUpload =
      { response := { status := 200, headers := [], body := .json [("status", "ok")] },
        emitted := ioEmit ["A", "B"] "encrypted_broadcast"
          { filename := .string (js "empty.bin"), filetype := .undefined,
            iv := js "0102030405060708090a0b0c",
            authTag := js "2de03dae663071831859ef8b9da935f6",
            content := js "" },
        ops := [.randomBytes 12, .createCipheriv, .cipherUpdate, .cipherFinal, .getAuthTag] } := by
  decide!

/-- C10, amended. A request whose `filedata` is the empty string, which is the base64 encoding
of the empty plaintext, is answered with status 400 and `message: no filedata`, with no call
into `crypto` and no delivery. The test reads the string, not the decoded bytes: with a 32-byte
`KEY` and a 12-byte nonce, every `filedata` that is a non-empty string decoding to no byte is
accepted, and the envelope of the empty plaintext is delivered to every connected socket with
the response `status: ok`. -/
theorem empty_filedata_rejected_undecodable_filedata_broadcast (KEY : Bytes)
    (sockets : List String) (rnd : Bytes) (filename filetype : JsValue) :
    bufferToString [] .base64 = [] ∧
    uploadAndBroadcast KEY sockets rnd
        { filename := filename, filetype := filetype, filedata := .string [] }
      = { response := { status := 400, headers := [], body := .json [("message", "no filedata")] },
          emitted := [], ops := [] } ∧
    (∀ s : JsString, KEY.length = 32 → rnd.length = 12 → s ≠ [] → base64Decode s = [] →
      uploadAndBroadcast KEY sockets rnd
          { filename := filename, filetype := filetype, filedata := .string s }
        = { response := { status := 200, headers := [], body := .json [("status", "ok")] },
            emitted := ioEmit sockets "encrypted_broadcast"
              { filename := filename, filetype := filetype, iv := (sealed KEY rnd []).iv,
                authTag := (sealed KEY rnd []).authTag, content := (sealed KEY rnd []).content },
            ops := [.randomBytes 12, .createCipheriv, .cipherUpdate, .cipherFinal, .getAuthTag] }) := by
  refine ⟨rfl, rfl, fun s hk hr hs hd => ?_⟩
  exact uploadAndBroadcast_eq KEY rnd sockets filename filetype s [] hk hr hs hd

/-- Witness of the amended C10 at `sampleKey`, `sampleNonce` and the `filedata` `====`. -/
theorem empty_filedata_rejected_undecodable_filedata_broadcast_witness :
    sampleKey.length = 32 ∧ sampleNonce.length = 12 ∧ js "====" ≠ [] ∧
    base64Decode (js "====") = [] ∧
    uploadAndBroadcast sampleKey ["A"] sampleNonce
        { filename := .undefined, filetype := .undefined, filedata := .string (js "====") }
      = { response := { status := 200, headers := [], body := .json [("status", "ok")] },
          emitted := ioEmit ["A"] "encrypted_broadcast"
            { filename := .undefined, filetype := .undefined,
              iv := (sealed sampleKey sampleNonce []).iv,
              authTag := (sealed sampleKey sampleNonce []).authTag,
              content := (sealed sampleKey sampleNonce []).content },
          ops := [.randomBytes 12, .createCipheriv, .cipherUpdate, .cipherFinal, .getAuthTag] } :=
  ⟨by decide, by decide, by decide, by decide,
    (empty_filedata_rejected_undecodable_filedata_broadcast sampleKey ["A"] sampleNonce
      .undefined .undefined).2.2 (js "====") (by decide) (by decide) (by decide) (by decide)⟩

end IITREnc
